import Mathlib

/-!
Shallow embedding of the memu-mcp server's tool-call gateway.

The embedding covers:
* `MemoryTools` — the five tool handlers of `src/memu_mcp_server/tools.py`,
  modelled as pure validators producing either a Python-level error
  (`ValueError` or another exception) or the backend-adapter call they
  would perform with the extracted/defaulted arguments.
* `call_tool` — the dispatch chain of `src/memu_mcp_server/server.py`,
  which routes by name and turns every raised error into an error-flagged
  result envelope.
* `MemuClientWrapper` — the backend client adapter of
  `src/memu_mcp_server/memu_client.py`: the retry loop of `initialize`,
  the `Client not initialized` guard on every per-operation method, the
  result-dictionary shapes, and `close`.

Python dictionaries of JSON-like values are modelled by association lists
over an inductive `Value` type; Python truthiness, `dict.get`,
`isinstance` checks and `len` are modelled explicitly.
-/

/-- A Python/JSON-like runtime value as it appears in an MCP `arguments`
mapping or a result dictionary. `.bool` is kept separate from `.int` but
(as in Python, where `bool` is a subclass of `int`) counts as an integer
for `isinstance(x, int)`; `.num` models a Python float; `.none` models
Python `None`. -/
inductive Value where
  | str (s : String)
  | int (n : Int)
  | bool (b : Bool)
  | num (q : ℚ)
  | list (xs : List Value)
  | obj (fields : List (String × Value))
  | none

/-- Python truthiness (`bool(v)`): `None`, `False`, zero, the empty string,
the empty list and the empty dict are falsy; everything else is truthy. -/
def Value.truthy : Value → Bool
  | .str s => !(s == "")
  | .int n => !(n == 0)
  | .bool b => b
  | .num q => !(q == 0)
  | .list xs => !xs.isEmpty
  | .obj fields => !fields.isEmpty
  | .none => false

/-- `isinstance(v, int)` in Python: `int` and `bool` values qualify. -/
def Value.isInstInt : Value → Bool
  | .int _ => true
  | .bool _ => true
  | _ => false

/-- `isinstance(v, bool)` in Python: only `bool` values qualify. -/
def Value.isInstBool : Value → Bool
  | .bool _ => true
  | _ => false

/-- `isinstance(v, dict)` in Python: only dictionaries qualify. -/
def Value.isInstDict : Value → Bool
  | .obj _ => true
  | _ => false

/-- The integer value of an `int`-instance (`True` is 1, `False` is 0);
zero on other values, which never reach an arithmetic comparison in the
modelled code because `isInstInt` is checked first. -/
def Value.toInt : Value → Int
  | .int n => n
  | .bool b => if b then 1 else 0
  | _ => 0

/-- Python `v == lit` for a string literal `lit`: only a string value can
compare equal to a string. -/
def Value.eqStr : Value → String → Bool
  | .str s, t => s == t
  | _, _ => false

/-- Python `len(v)`: defined for strings, lists and dicts; `Option.none`
models the `TypeError` raised on other values. -/
def Value.pyLen : Value → Option Nat
  | .str s => some s.length
  | .list xs => some xs.length
  | .obj fields => some fields.length
  | _ => Option.none

/-- An MCP `arguments` mapping: an association list from parameter name to
value (first binding wins, like a dict). -/
abbrev Args := List (String × Value)

/-- `arguments.get(k)`: the stored value, or Python `None` when the key is
absent. -/
def pyGet (args : Args) (k : String) : Value :=
  (List.lookup k args).getD Value.none

/-- `arguments.get(k, d)`: the stored value, or the default `d` when the
key is absent. -/
def pyGetD (args : Args) (k : String) (d : Value) : Value :=
  (List.lookup k args).getD d

/-- A Python exception escaping a tool handler: a `ValueError` (caught
specially by the server's dispatcher) or any other exception. -/
inductive PyError where
  | valueError (msg : String)
  | otherError (msg : String)

/-- The backend-adapter invocation a tool handler performs after its
validation passes, with the argument values it passes along. -/
inductive BackendCall where
  | memorize (conversation user_id user_name agent_id agent_name : Value)
  | retrieve (query user_id limit : Value)
  | search (search_query user_id filters limit : Value)
  | update (memory_id new_content user_id : Value)
  | delete (memory_id user_id : Value)
  | stats (user_id include_details : Value)

namespace MemoryTools

/-- `MemoryTools.memorize_conversation` (tools.py): requires a truthy
`conversation`, fills defaults, rejects conversations longer than 100000
characters, then calls the adapter. -/
def memorize_conversation (args : Args) : Except PyError BackendCall :=
  let conversation := pyGet args "conversation"
  if !conversation.truthy then
    .error (.valueError "conversation is required")
  else
    let user_id := pyGetD args "user_id" (.str "default_user")
    let user_name := pyGetD args "user_name" (.str "User")
    let agent_id := pyGetD args "agent_id" (.str "default_agent")
    let agent_name := pyGetD args "agent_name" (.str "Assistant")
    match conversation.pyLen with
    | Option.none => .error (.otherError "object has no len()")
    | some n =>
      if n > 100000 then
        .error (.valueError "Conversation too long (max 100,000 characters)")
      else
        .ok (.memorize conversation user_id user_name agent_id agent_name)

/-- `MemoryTools.retrieve_memory` (tools.py): requires a truthy `query`,
defaults `limit` to 10, and rejects a `limit` that is not an `int`
instance or lies outside `[1, 50]`. -/
def retrieve_memory (args : Args) : Except PyError BackendCall :=
  let query := pyGet args "query"
  if !query.truthy then
    .error (.valueError "query is required")
  else
    let user_id := pyGetD args "user_id" (.str "default_user")
    let limit := pyGetD args "limit" (.int 10)
    if !limit.isInstInt || limit.toInt < 1 || limit.toInt > 50 then
      .error (.valueError "limit must be an integer between 1 and 50")
    else
      .ok (.retrieve query user_id limit)

/-- `MemoryTools.search_memory` (tools.py): requires a truthy
`search_query`, defaults `filters` to the empty dict and `limit` to 10,
checks `limit` before `filters`, and rejects a truthy non-dict
`filters`. -/
def search_memory (args : Args) : Except PyError BackendCall :=
  let search_query := pyGet args "search_query"
  if !search_query.truthy then
    .error (.valueError "search_query is required")
  else
    let user_id := pyGetD args "user_id" (.str "default_user")
    let filters := pyGetD args "filters" (.obj [])
    let limit := pyGetD args "limit" (.int 10)
    if !limit.isInstInt || limit.toInt < 1 || limit.toInt > 50 then
      .error (.valueError "limit must be an integer between 1 and 50")
    else if filters.truthy && !filters.isInstDict then
      .error (.valueError "filters must be a dictionary")
    else
      .ok (.search search_query user_id filters limit)

/-- `MemoryTools.manage_memory` (tools.py): checks
`action in ["update", "delete"]` first, then a truthy `memory_id`, then
(for `update` only) a truthy `new_content`. The final `.otherError`
branch models the `UnboundLocalError` Python would raise on the dead
fall-through where `action` matches neither branch. -/
def manage_memory (args : Args) : Except PyError BackendCall :=
  let action := pyGet args "action"
  if !(action.eqStr "update" || action.eqStr "delete") then
    .error (.valueError "action must be \x27update\x27 or \x27delete\x27")
  else
    let memory_id := pyGet args "memory_id"
    if !memory_id.truthy then
      .error (.valueError "memory_id is required")
    else
      let user_id := pyGetD args "user_id" (.str "default_user")
      if action.eqStr "update" then
        let new_content := pyGet args "new_content"
        if !new_content.truthy then
          .error (.valueError "new_content is required for update action")
        else
          .ok (.update memory_id new_content user_id)
      else if action.eqStr "delete" then
        .ok (.delete memory_id user_id)
      else
        .error (.otherError "local variable result referenced before assignment")

/-- `MemoryTools.get_memory_stats` (tools.py): no required parameters;
defaults `include_details` to `False` and rejects a non-boolean value
for it. -/
def get_memory_stats (args : Args) : Except PyError BackendCall :=
  let user_id := pyGetD args "user_id" (.str "default_user")
  let include_details := pyGetD args "include_details" (.bool false)
  if !include_details.isInstBool then
    .error (.valueError "include_details must be a boolean")
  else
    .ok (.stats user_id include_details)

end MemoryTools

/-- The result envelope the server's `call_tool` handler returns for every
call: a text payload, an error flag, and (instrumentation for the proofs)
the backend-adapter call that was performed, if any. -/
structure CallToolResult where
  text : String
  isErr : Bool
  backendCall : Option BackendCall

/-- The name-comparison chain of `call_tool` (server.py): route to the
matching tool handler, or raise `ValueError("Unknown tool: ...")`. -/
def dispatch_tool (name : String) (args : Args) : Except PyError BackendCall :=
  if name == "memorize_conversation" then MemoryTools.memorize_conversation args
  else if name == "retrieve_memory" then MemoryTools.retrieve_memory args
  else if name == "search_memory" then MemoryTools.search_memory args
  else if name == "manage_memory" then MemoryTools.manage_memory args
  else if name == "get_memory_stats" then MemoryTools.get_memory_stats args
  else .error (.valueError ("Unknown tool: " ++ name))

/-- `call_tool` (server.py): runs the dispatch chain inside
`try/except`; a `ValueError` becomes an `Error: ...` envelope, any other
exception an `Internal error: ...` envelope, both with the error flag set
and the serving loop intact. On a validated call the backend
(parameterised here as `backend`) is awaited; its result text is wrapped
on success, and an exception it raises is caught by the generic handler. -/
def call_tool (backend : BackendCall → Except String String)
    (name : String) (args : Args) : CallToolResult :=
  match dispatch_tool name args with
  | .error (.valueError m) =>
      { text := "Error: " ++ m, isErr := true, backendCall := Option.none }
  | .error (.otherError m) =>
      { text := "Internal error: " ++ m, isErr := true, backendCall := Option.none }
  | .ok bc =>
      match backend bc with
      | .ok txt => { text := txt, isErr := false, backendCall := some bc }
      | .error m =>
          { text := "Internal error: " ++ m, isErr := true, backendCall := some bc }

/-- Python `str.split()` with no separator, on the character list of the
string: splits on runs of whitespace and returns the maximal non-whitespace
runs, never producing empty words. Used by the adapter to compute
`tokens_processed = len(conversation.split())`. -/
def pySplit : List Char → List (List Char)
  | [] => []
  | c :: rest =>
    if c.isWhitespace then pySplit rest
    else (c :: rest.takeWhile (fun d => !d.isWhitespace)) ::
      pySplit (rest.dropWhile (fun d => !d.isWhitespace))
termination_by l => l.length
decreasing_by
  · simp
  · simpa using Nat.lt_succ_of_le (List.dropWhile_sublist _).length_le

/-- Declarative whitespace-delimited word count: scans left to right,
counting each non-whitespace character whose predecessor is whitespace or
the start of the string. The flag records whether the previous character
was part of a word. -/
def wordCountAux : Bool → List Char → Nat
  | _, [] => 0
  | prevInWord, c :: rest =>
    if c.isWhitespace then wordCountAux false rest
    else (if prevInWord then 0 else 1) + wordCountAux true rest

/-- The whitespace-delimited word count of a string: the number of maximal
non-whitespace runs. -/
def wordCount (s : String) : Nat := wordCountAux false s.data

/-- Python `round(x, 3)` as used for `processing_time`, on exact rationals
(the float's round-half-to-even tie behaviour is immaterial here and is
modelled as round-half-up). -/
def round3 (q : ℚ) : ℚ := (round (q * 1000) : ℚ) / 1000

namespace MemuClientWrapper

/-- `MemuClientWrapper.__init__` leaves `self._client = None`: the session
handle is absent before `initialize()` runs. -/
def initClient : Bool := false

/-- `MemuClientWrapper.close` (memu_client.py): `if self._client:` release
it by assigning `None`; the handle is absent afterwards in either case. -/
def close (client : Bool) : Bool :=
  if client then false else client

/-- The outcome, final mutable state and observable sleeps of
`MemuClientWrapper.initialize`. `ok = false` models the
`ConnectionError` raised after the last attempt. -/
structure InitResult where
  ok : Bool
  attempts : Nat
  delays : List ℚ
  client : Bool
  retry_count : Nat

/-- The body of `initialize`'s `for attempt in range(self._max_retries + 1)`
loop (memu_client.py). `outcome a` tells whether the connection attempt
with 0-indexed number `a` succeeds (in the source an attempt can only fail
in the `MemuClient(...)` constructor — `_test_connection` never raises — so
a failed attempt leaves `self._client` unchanged). On success the retry
counter is reset to 0 and the loop returns; on failure with retries
remaining it sleeps `base_delay * 2 ** attempt` seconds and continues; on
the last failure it raises `ConnectionError`. -/
def initAttempts (outcome : Nat → Bool) (baseDelay : ℚ) (maxRetries : Nat)
    (client0 : Bool) (rc0 : Nat) (attempt : Nat) (delays : List ℚ) : InitResult :=
  if outcome attempt then
    { ok := true, attempts := attempt + 1, delays := delays,
      client := true, retry_count := 0 }
  else if attempt < maxRetries then
    initAttempts outcome baseDelay maxRetries client0 rc0 (attempt + 1)
      (delays ++ [baseDelay * 2 ^ attempt])
  else
    { ok := false, attempts := attempt + 1, delays := delays,
      client := client0, retry_count := rc0 }
termination_by maxRetries - attempt
decreasing_by omega

/-- `MemuClientWrapper.initialize` (memu_client.py), which is a reserved
word in Lean and therefore named `init` here: run the attempt loop from
attempt 0 with no sleeps performed yet, starting from session state
`client0` and retry counter `rc0`. -/
def init (outcome : Nat → Bool) (baseDelay : ℚ) (maxRetries : Nat)
    (client0 : Bool) (rc0 : Nat) : InitResult :=
  initAttempts outcome baseDelay maxRetries client0 rc0 0 []

/-- A result dictionary returned by an adapter method. -/
abbrev ResultDict := List (String × Value)

/-- `MemuClientWrapper.memorize_conversation` (memu_client.py): guard on
the session handle, run the backend call (`backendResult` is the
`getattr(result, 'id', None)` of the backend's answer, or the message of
the exception it raised), and build the result dictionary;
`elapsed` is the seconds-elapsed measurement sampled around the backend
call. -/
def memorize_conversation (client : Bool) (conversation : String)
    (_user_id _user_name _agent_id _agent_name : Value)
    (backendResult : Except String Value) (elapsed : ℚ) :
    Except String ResultDict :=
  if !client then .error "Client not initialized"
  else
    match backendResult with
    | .error e => .error ("Failed to memorize conversation: " ++ e)
    | .ok memId =>
        .ok [("success", .bool true),
             ("message", .str "Conversation memorized successfully"),
             ("memory_id", memId),
             ("tokens_processed", .int ((pySplit conversation.data).length : Int)),
             ("processing_time", .num (round3 elapsed))]

/-- `MemuClientWrapper.retrieve_memory` (memu_client.py): guard on the
session handle, then the placeholder implementation's fixed response with
the query, user id and sampled elapsed time substituted. -/
def retrieve_memory (client : Bool) (query : String) (user_id : String)
    (_limit : Int) (elapsed : ℚ) : Except String ResultDict :=
  if !client then .error "Client not initialized"
  else
    .ok [("success", .bool true),
         ("memories", .list [.obj
            [("id", .str "mem_001"),
             ("content", .str "Example memory content related to query"),
             ("relevance_score", .num (85/100)),
             ("timestamp", .str "2024-01-01T12:00:00Z"),
             ("user_id", .str user_id),
             ("metadata", .obj
                [("conversation_id", .str "conv_001"),
                 ("agent_id", .str "agent_001")])]]),
         ("total_found", .int 1),
         ("query", .str query),
         ("processing_time", .num (round3 elapsed))]

/-- `MemuClientWrapper.search_memory` (memu_client.py): guard on the
session handle, then the placeholder implementation's fixed response. -/
def search_memory (client : Bool) (search_query : String) (user_id : String)
    (filters : Value) (_limit : Int) (elapsed : ℚ) : Except String ResultDict :=
  if !client then .error "Client not initialized"
  else
    .ok [("success", .bool true),
         ("results", .list [.obj
            [("id", .str "mem_002"),
             ("content", .str "Memory content matching search query"),
             ("similarity_score", .num (92/100)),
             ("timestamp", .str "2024-01-01T12:00:00Z"),
             ("user_id", .str user_id)]]),
         ("total_results", .int 1),
         ("search_query", .str search_query),
         ("filters_applied", if filters.truthy then filters else .obj []),
         ("processing_time", .num (round3 elapsed))]

/-- `MemuClientWrapper.update_memory` (memu_client.py): guard on the
session handle, then the placeholder response echoing the memory id and
new content. -/
def update_memory (client : Bool) (memory_id : String) (new_content : String)
    (_user_id : String) (elapsed : ℚ) : Except String ResultDict :=
  if !client then .error "Client not initialized"
  else
    .ok [("success", .bool true),
         ("message", .str "Memory updated successfully"),
         ("memory_id", .str memory_id),
         ("updated_content", .str new_content),
         ("processing_time", .num (round3 elapsed))]

/-- `MemuClientWrapper.delete_memory` (memu_client.py): guard on the
session handle, then the placeholder response echoing the memory id. -/
def delete_memory (client : Bool) (memory_id : String) (_user_id : String)
    (elapsed : ℚ) : Except String ResultDict :=
  if !client then .error "Client not initialized"
  else
    .ok [("success", .bool true),
         ("message", .str "Memory deleted successfully"),
         ("memory_id", .str memory_id),
         ("processing_time", .num (round3 elapsed))]

/-- `MemuClientWrapper.get_memory_stats` (memu_client.py): guard on the
session handle, then the placeholder statistics, with the `details`
breakdown appended exactly when `include_details` is true. -/
def get_memory_stats (client : Bool) (user_id : String)
    (include_details : Bool) (elapsed : ℚ) : Except String ResultDict :=
  if !client then .error "Client not initialized"
  else
    let stats : ResultDict :=
      [("success", .bool true),
       ("user_id", .str user_id),
       ("total_memories", .int 42),
       ("total_conversations", .int 15),
       ("memory_size_mb", .num (12/10)),
       ("last_updated", .str "2024-01-01T12:00:00Z"),
       ("processing_time", .num (round3 elapsed))]
    if include_details then
      .ok (stats ++ [("details", .obj
        [("memories_by_agent", .obj
           [("agent_001", .int 25), ("agent_002", .int 17)]),
         ("memory_types", .obj
           [("conversation", .int 35), ("facts", .int 7)]),
         ("date_range", .obj
           [("earliest", .str "2023-12-01T00:00:00Z"),
            ("latest", .str "2024-01-01T12:00:00Z")])])])
    else
      .ok stats

end MemuClientWrapper

/-! ### Helper lemmas -/

lemma str_truthy_iff (s : String) : (Value.str s).truthy = true ↔ s ≠ "" := by
  simp [Value.truthy]

lemma str_ne_empty_of_length_pos {s : String} (h : 0 < s.length) : s ≠ "" := by
  intro h0
  subst h0
  simp [String.length] at h

/-- Continuing a scan mid-word counts the same words as starting a fresh
scan after the current word is dropped. -/
lemma wordCountAux_true_eq (l : List Char) :
    wordCountAux true l =
      wordCountAux false (l.dropWhile (fun d => !d.isWhitespace)) := by
  induction l with
  | nil => rfl
  | cons c rest ih =>
    by_cases hc : c.isWhitespace
    · simp [wordCountAux, hc, List.dropWhile]
    · simp [wordCountAux, hc, List.dropWhile, ih]

/-- The number of words produced by Python's `str.split()` equals the
declarative whitespace-delimited word count. -/
lemma pySplit_length : ∀ n (l : List Char), l.length ≤ n →
    (pySplit l).length = wordCountAux false l := by
  intro n
  induction n with
  | zero =>
    intro l hl
    have h0 : l = [] := List.length_eq_zero.mp (Nat.le_zero.mp hl)
    subst h0
    simp [pySplit, wordCountAux]
  | succ n ih =>
    intro l hl
    match l with
    | [] => simp [pySplit, wordCountAux]
    | c :: rest =>
      rw [pySplit]
      by_cases hc : c.isWhitespace
      · rw [if_pos hc, ih rest (by simpa using hl)]
        simp [wordCountAux, hc]
      · rw [if_neg hc, List.length_cons,
          ih (rest.dropWhile (fun d => !d.isWhitespace))
            (le_trans (List.dropWhile_sublist _).length_le (by simpa using hl)),
          ← wordCountAux_true_eq]
        simp [wordCountAux, hc]
        omega

lemma pySplit_length_eq_wordCount (s : String) :
    (pySplit s.data).length = wordCount s :=
  pySplit_length s.data.length s.data le_rfl

/-- What the attempt loop guarantees when entered at `attempt` with sleeps
`dl` already performed: bounds on the attempt count, the exact backoff
sleeps appended, failure of every non-final attempt, and the final mutable
state in the success and the exhausted case. -/
def InitSpec (outcome : Nat → Bool) (b : ℚ) (m : Nat) (c0 : Bool) (rc0 : Nat)
    (attempt : Nat) (dl : List ℚ) (r : MemuClientWrapper.InitResult) : Prop :=
  (attempt + 1 ≤ r.attempts ∧ r.attempts ≤ m + 1) ∧
  r.delays = dl ++ (List.range' attempt (r.attempts - 1 - attempt)).map
    (fun i => b * 2 ^ i) ∧
  (∀ j, attempt ≤ j → j + 1 < r.attempts → outcome j = false) ∧
  (r.ok = true → outcome (r.attempts - 1) = true ∧
    r.retry_count = 0 ∧ r.client = true) ∧
  (r.ok = false → r.attempts = m + 1 ∧ outcome m = false ∧
    r.client = c0 ∧ r.retry_count = rc0)

lemma initAttempts_spec (outcome : Nat → Bool) (b : ℚ) (m : Nat)
    (c0 : Bool) (rc0 : Nat) : ∀ n attempt (dl : List ℚ), m - attempt = n →
    attempt ≤ m →
    InitSpec outcome b m c0 rc0 attempt dl
      (MemuClientWrapper.initAttempts outcome b m c0 rc0 attempt dl) := by
  intro n
  induction n with
  | zero =>
    intro attempt dl hn ha
    have hma : attempt = m := by omega
    rw [MemuClientWrapper.initAttempts]
    split_ifs with h1 h2
    · refine ⟨⟨by simp, by simp; omega⟩, by simp,
        fun j hj hj1 => by simp at hj1; omega,
        fun _ => ⟨by simpa using h1, rfl, rfl⟩, fun h => by simp at h⟩
    · omega
    · refine ⟨⟨by simp, by simp; omega⟩, by simp,
        fun j hj hj1 => by simp at hj1; omega,
        fun h => by simp at h, fun _ => ⟨by simp; omega, ?_, rfl, rfl⟩⟩
      rw [← hma]
      simpa using h1
  | succ n ih =>
    intro attempt dl hn ha
    rw [MemuClientWrapper.initAttempts]
    split_ifs with h1 h2
    · refine ⟨⟨by simp, by simp; omega⟩, by simp,
        fun j hj hj1 => by simp at hj1; omega,
        fun _ => ⟨by simpa using h1, rfl, rfl⟩, fun h => by simp at h⟩
    · have hspec := ih (attempt + 1) (dl ++ [b * 2 ^ attempt]) (by omega)
        (by omega)
      obtain ⟨⟨hlo, hhi⟩, hdl, hfail, hok, hbad⟩ := hspec
      refine ⟨⟨by omega, hhi⟩, ?_, ?_, hok, hbad⟩
      · rw [hdl, List.append_assoc]
        congr 1
        have hlen : (MemuClientWrapper.initAttempts outcome b m c0 rc0
            (attempt + 1) (dl ++ [b * 2 ^ attempt])).attempts - 1 - attempt =
            ((MemuClientWrapper.initAttempts outcome b m c0 rc0
              (attempt + 1) (dl ++ [b * 2 ^ attempt])).attempts - 1 -
              (attempt + 1)) + 1 := by omega
        rw [hlen, List.range'_succ, List.map_cons]
        rfl
      · intro j hj hj1
        rcases Nat.eq_or_lt_of_le hj with hj2 | hj2
        · rw [← hj2]
          simpa using h1
        · exact hfail j hj2 hj1
    · omega

/-! ### Claims -/

/-- C1, counterexample. The claim says every operation, called with all of
its required parameters absent, yields a validation failure whose message
is `"<name> is required"` for the first missing required parameter. Both
halves fail at a concrete input: `get_memory_stats` has no required
parameters and, called with an empty arguments mapping, performs its
backend call instead of failing; and `manage_memory`, called with its
required `action` and `memory_id` both absent, fails with the enum message
`"action must be 'update' or 'delete'"`, not `"action is required"`. -/
theorem C1_counterexample :
    MemoryTools.get_memory_stats ([] : Args) =
      .ok (.stats (.str "default_user") (.bool false)) ∧
    MemoryTools.manage_memory ([] : Args) =
      .error (.valueError "action must be \x27update\x27 or \x27delete\x27") ∧
    "action must be \x27update\x27 or \x27delete\x27" ≠ "action is required" := by
  refine ⟨rfl, rfl, by decide⟩

/-- C1, amended. For `memorize_conversation`, `retrieve_memory` and
`search_memory`, a call whose (single) required parameter is absent from
the arguments mapping fails validation with the message
`"<name> is required"` and no backend-adapter method is invoked (the
result is an error, never a `BackendCall`). For `manage_memory`, whose
first required parameter `action` is also enum-constrained, the same
situation fails — before any backend invocation — with
`"action must be 'update' or 'delete'"`. `get_memory_stats` has no
required parameters, and an empty call proceeds to the backend with its
defaults. -/
theorem C1_theorem :
    (∀ args : Args, List.lookup "conversation" args = Option.none →
      MemoryTools.memorize_conversation args =
        .error (.valueError "conversation is required")) ∧
    (∀ args : Args, List.lookup "query" args = Option.none →
      MemoryTools.retrieve_memory args =
        .error (.valueError "query is required")) ∧
    (∀ args : Args, List.lookup "search_query" args = Option.none →
      MemoryTools.search_memory args =
        .error (.valueError "search_query is required")) ∧
    (∀ args : Args, List.lookup "action" args = Option.none →
      MemoryTools.manage_memory args =
        .error (.valueError "action must be \x27update\x27 or \x27delete\x27")) ∧
    MemoryTools.get_memory_stats ([] : Args) =
      .ok (.stats (.str "default_user") (.bool false)) := by
  refine ⟨?_, ?_, ?_, ?_, rfl⟩
  · intro args h
    simp [MemoryTools.memorize_conversation, pyGet, h, Value.truthy]
  · intro args h
    simp [MemoryTools.retrieve_memory, pyGet, h, Value.truthy]
  · intro args h
    simp [MemoryTools.search_memory, pyGet, h, Value.truthy]
  · intro args h
    simp [MemoryTools.manage_memory, pyGet, h, Value.eqStr]

/-- C1, witness: the amended theorem applied with each required parameter
concretely absent. -/
theorem C1_witness :
    MemoryTools.memorize_conversation [("user_id", Value.str "u")] =
      .error (.valueError "conversation is required") ∧
    MemoryTools.retrieve_memory [("limit", Value.int 10)] =
      .error (.valueError "query is required") ∧
    MemoryTools.search_memory ([] : Args) =
      .error (.valueError "search_query is required") ∧
    MemoryTools.manage_memory [("user_id", Value.str "u")] =
      .error (.valueError "action must be \x27update\x27 or \x27delete\x27") :=
  ⟨C1_theorem.1 _ rfl, C1_theorem.2.1 _ rfl, C1_theorem.2.2.1 _ rfl,
   C1_theorem.2.2.2.1 _ rfl⟩

/-- C2: `manage_memory` with `action="update"`, a truthy `memory_id` and no
(truthy) `new_content` fails with `"new_content is required for update
action"` and invokes no backend method; an otherwise identical call with
`action="delete"` succeeds, invoking the backend delete method with the
memory id and (defaulted) user id; and the conditional `new_content`
requirement is checked only after the unconditional `action` and
`memory_id` checks — with `action="update"` and a non-truthy `memory_id`
it is the `memory_id` error that fires. -/
theorem C2_theorem (argsU argsD : Args) (mid uid : Value)
    (haU : pyGet argsU "action" = Value.str "update")
    (haD : pyGet argsD "action" = Value.str "delete")
    (hmU : pyGet argsU "memory_id" = mid)
    (hmD : pyGet argsD "memory_id" = mid)
    (hmt : mid.truthy = true)
    (hnU : (pyGet argsU "new_content").truthy = false)
    (huD : pyGetD argsD "user_id" (Value.str "default_user") = uid) :
    MemoryTools.manage_memory argsU =
      .error (.valueError "new_content is required for update action") ∧
    MemoryTools.manage_memory argsD = .ok (.delete mid uid) ∧
    (∀ args : Args, pyGet args "action" = Value.str "update" →
      (pyGet args "memory_id").truthy = false →
      MemoryTools.manage_memory args =
        .error (.valueError "memory_id is required")) := by
  refine ⟨?_, ?_, ?_⟩
  · simp [MemoryTools.manage_memory, haU, hmU, hmt, hnU, Value.eqStr]
  · simp [MemoryTools.manage_memory, haD, hmD, hmt, huD, Value.eqStr]
  · intro args ha hm
    simp [MemoryTools.manage_memory, ha, hm, Value.eqStr]

/-- C2, witness: the theorem applied at a concrete update call lacking
`new_content` and the same call with `action="delete"`. -/
theorem C2_witness :
    MemoryTools.manage_memory
      [("action", Value.str "update"), ("memory_id", Value.str "mem_001")] =
      .error (.valueError "new_content is required for update action") ∧
    MemoryTools.manage_memory
      [("action", Value.str "delete"), ("memory_id", Value.str "mem_001")] =
      .ok (.delete (Value.str "mem_001") (Value.str "default_user")) :=
  ⟨(C2_theorem
      [("action", Value.str "update"), ("memory_id", Value.str "mem_001")]
      [("action", Value.str "delete"), ("memory_id", Value.str "mem_001")]
      (Value.str "mem_001") (Value.str "default_user")
      rfl rfl rfl rfl rfl rfl rfl).1,
   (C2_theorem
      [("action", Value.str "update"), ("memory_id", Value.str "mem_001")]
      [("action", Value.str "delete"), ("memory_id", Value.str "mem_001")]
      (Value.str "mem_001") (Value.str "default_user")
      rfl rfl rfl rfl rfl rfl rfl).2.1⟩

/-- C7: for every arguments mapping in which `action` is present but (as a
Python value) equal to neither the string `"update"` nor the string
`"delete"`, `manage_memory` fails with exactly
`"action must be 'update' or 'delete'"`, regardless of all other fields,
and no backend method is invoked (the result is an error). -/
theorem C7_theorem (args : Args) (v : Value)
    (h : List.lookup "action" args = some v)
    (hu : v.eqStr "update" = false) (hd : v.eqStr "delete" = false) :
    MemoryTools.manage_memory args =
      .error (.valueError "action must be \x27update\x27 or \x27delete\x27") := by
  simp [MemoryTools.manage_memory, pyGet, h, hu, hd]

/-- C7, witness: `action="bogus"` with every other field present and
well-formed still fails with the enum message. -/
theorem C7_witness :
    MemoryTools.manage_memory
      [("action", Value.str "bogus"), ("memory_id", Value.str "mem_001"),
       ("new_content", Value.str "text"), ("user_id", Value.str "u")] =
      .error (.valueError "action must be \x27update\x27 or \x27delete\x27") :=
  C7_theorem _ (Value.str "bogus") rfl rfl rfl

/-- C9: a required string parameter present but equal to the empty string
is rejected exactly as if it were absent — same `"<name> is required"`
message, no backend invocation — because presence is tested by Python
truthiness. Holds for `conversation` in `memorize_conversation`, `query`
in `retrieve_memory`, `search_query` in `search_memory`, and `memory_id`
(and, under `action="update"`, `new_content`) in `manage_memory`. -/
theorem C9_theorem :
    (∀ args : Args, List.lookup "conversation" args = some (Value.str "") →
      MemoryTools.memorize_conversation args =
        .error (.valueError "conversation is required")) ∧
    (∀ args : Args, List.lookup "query" args = some (Value.str "") →
      MemoryTools.retrieve_memory args =
        .error (.valueError "query is required")) ∧
    (∀ args : Args, List.lookup "search_query" args = some (Value.str "") →
      MemoryTools.search_memory args =
        .error (.valueError "search_query is required")) ∧
    (∀ args : Args,
      (pyGet args "action").eqStr "update" = true ∨
        (pyGet args "action").eqStr "delete" = true →
      pyGet args "memory_id" = Value.str "" →
      MemoryTools.manage_memory args =
        .error (.valueError "memory_id is required")) ∧
    (∀ args : Args, (pyGet args "action").eqStr "update" = true →
      (pyGet args "memory_id").truthy = true →
      pyGet args "new_content" = Value.str "" →
      MemoryTools.manage_memory args =
        .error (.valueError "new_content is required for update action")) := by
  refine ⟨?_, ?_, ?_, ?_, ?_⟩
  · intro args h
    simp [MemoryTools.memorize_conversation, pyGet, h, Value.truthy]
  · intro args h
    simp [MemoryTools.retrieve_memory, pyGet, h, Value.truthy]
  · intro args h
    simp [MemoryTools.search_memory, pyGet, h, Value.truthy]
  · intro args ha hm
    rcases ha with ha | ha <;>
      simp [MemoryTools.manage_memory, ha, hm, Value.truthy]
  · intro args ha hm hn
    simp [Value.truthy] at hm
    simp [MemoryTools.manage_memory, ha, hm, hn, Value.truthy]

/-- C9, witness: each empty-string case at a concrete arguments mapping. -/
theorem C9_witness :
    MemoryTools.memorize_conversation [("conversation", Value.str "")] =
      .error (.valueError "conversation is required") ∧
    MemoryTools.retrieve_memory [("query", Value.str "")] =
      .error (.valueError "query is required") ∧
    MemoryTools.search_memory [("search_query", Value.str "")] =
      .error (.valueError "search_query is required") ∧
    MemoryTools.manage_memory
      [("action", Value.str "delete"), ("memory_id", Value.str "")] =
      .error (.valueError "memory_id is required") ∧
    MemoryTools.manage_memory
      [("action", Value.str "update"), ("memory_id", Value.str "m"),
       ("new_content", Value.str "")] =
      .error (.valueError "new_content is required for update action") :=
  ⟨C9_theorem.1 _ rfl, C9_theorem.2.1 _ rfl, C9_theorem.2.2.1 _ rfl,
   C9_theorem.2.2.2.1 _ (Or.inr rfl) rfl,
   C9_theorem.2.2.2.2 _ rfl rfl rfl⟩

/-- C4: `memorize_conversation` rejects any conversation string longer than
100,000 characters with the "too long" `ValueError` before any backend
invocation, and accepts a conversation of exactly 100,000 characters,
making the backend memorize call with the conversation and the defaulted
identity parameters. -/
theorem C4_theorem :
    (∀ (args : Args) (s : String), pyGet args "conversation" = Value.str s →
      100000 < s.length →
      MemoryTools.memorize_conversation args =
        .error (.valueError "Conversation too long (max 100,000 characters)")) ∧
    (∀ (args : Args) (s : String), pyGet args "conversation" = Value.str s →
      s.length = 100000 →
      MemoryTools.memorize_conversation args =
        .ok (.memorize (Value.str s)
          (pyGetD args "user_id" (.str "default_user"))
          (pyGetD args "user_name" (.str "User"))
          (pyGetD args "agent_id" (.str "default_agent"))
          (pyGetD args "agent_name" (.str "Assistant")))) := by
  constructor
  · intro args s h hlen
    have hne : s ≠ "" := str_ne_empty_of_length_pos (by omega)
    simp [MemoryTools.memorize_conversation, h, Value.truthy, Value.pyLen,
      hne, hlen]
  · intro args s h hlen
    have hne : s ≠ "" := str_ne_empty_of_length_pos (by omega)
    simp [MemoryTools.memorize_conversation, h, Value.truthy, Value.pyLen,
      hne, hlen]

/-- C4, witness: the theorem applied to a 100,001-character conversation
(rejected) and a 100,000-character conversation (accepted). -/
theorem C4_witness :
    MemoryTools.memorize_conversation
      [("conversation", Value.str (String.mk (List.replicate 100001 'x')))] =
      .error (.valueError "Conversation too long (max 100,000 characters)") ∧
    MemoryTools.memorize_conversation
      [("conversation", Value.str (String.mk (List.replicate 100000 'x')))] =
      .ok (.memorize (Value.str (String.mk (List.replicate 100000 'x')))
        (.str "default_user") (.str "User") (.str "default_agent")
        (.str "Assistant")) :=
  have h1 : (String.mk (List.replicate 100001 'x')).length = 100001 := by
    show (List.replicate 100001 'x').length = 100001
    simp only [List.length_replicate]
  have h2 : (String.mk (List.replicate 100000 'x')).length = 100000 := by
    show (List.replicate 100000 'x').length = 100000
    simp only [List.length_replicate]
  ⟨C4_theorem.1 _ _ rfl (by omega), C4_theorem.2 _ _ rfl h2⟩

/-- C3, counterexample. The claim quantifies over every arguments mapping
and says the two retrieval operations fail validation exactly when the
supplied limit is bad, an absent limit (defaulted to 10) passing on to the
backend. At the concrete empty mapping the limit is absent (so defaulted,
in range), yet both operations fail — with the required-parameter message,
not the limit message. -/
theorem C3_counterexample :
    MemoryTools.retrieve_memory ([] : Args) =
      .error (.valueError "query is required") ∧
    MemoryTools.search_memory ([] : Args) =
      .error (.valueError "search_query is required") ∧
    "query is required" ≠ "limit must be an integer between 1 and 50" := by
  refine ⟨rfl, rfl, by decide⟩

/-- C3, amended. For every arguments mapping whose required query parameter
is present and truthy (and, for `search_memory`, whose `filters` value is
absent, falsy, or a dictionary), the operation fails validation exactly
when the supplied `limit` (defaulted to 10 when absent) is not an `int`
instance or lies outside `[1, 50]`; in every such failing case the message
is exactly `"limit must be an integer between 1 and 50"`, and otherwise
the arguments pass on to the backend call. -/
theorem C3_theorem :
    (∀ args : Args, (pyGet args "query").truthy = true →
      ((pyGetD args "limit" (.int 10)).isInstInt = true ∧
          1 ≤ (pyGetD args "limit" (.int 10)).toInt ∧
          (pyGetD args "limit" (.int 10)).toInt ≤ 50 →
        MemoryTools.retrieve_memory args =
          .ok (.retrieve (pyGet args "query")
            (pyGetD args "user_id" (.str "default_user"))
            (pyGetD args "limit" (.int 10)))) ∧
      (¬((pyGetD args "limit" (.int 10)).isInstInt = true ∧
          1 ≤ (pyGetD args "limit" (.int 10)).toInt ∧
          (pyGetD args "limit" (.int 10)).toInt ≤ 50) →
        MemoryTools.retrieve_memory args =
          .error (.valueError "limit must be an integer between 1 and 50"))) ∧
    (∀ args : Args, (pyGet args "search_query").truthy = true →
      ((pyGetD args "filters" (.obj [])).truthy = false ∨
        (pyGetD args "filters" (.obj [])).isInstDict = true) →
      ((pyGetD args "limit" (.int 10)).isInstInt = true ∧
          1 ≤ (pyGetD args "limit" (.int 10)).toInt ∧
          (pyGetD args "limit" (.int 10)).toInt ≤ 50 →
        MemoryTools.search_memory args =
          .ok (.search (pyGet args "search_query")
            (pyGetD args "user_id" (.str "default_user"))
            (pyGetD args "filters" (.obj []))
            (pyGetD args "limit" (.int 10)))) ∧
      (¬((pyGetD args "limit" (.int 10)).isInstInt = true ∧
          1 ≤ (pyGetD args "limit" (.int 10)).toInt ∧
          (pyGetD args "limit" (.int 10)).toInt ≤ 50) →
        MemoryTools.search_memory args =
          .error (.valueError "limit must be an integer between 1 and 50"))) := by
  constructor
  · intro args hq
    constructor
    · rintro ⟨h1, h2, h3⟩
      simp [MemoryTools.retrieve_memory, hq, h1, h2, h3, not_lt.mpr h2,
        not_lt.mpr h3]
    · intro hbad
      simp [MemoryTools.retrieve_memory, hq]
      by_cases h1 : (pyGetD args "limit" (.int 10)).isInstInt = true
      · simp [h1] at hbad ⊢
        omega
      · simp [h1]
  · intro args hq hf
    constructor
    · rintro ⟨h1, h2, h3⟩
      rcases hf with hf | hf <;>
        simp [MemoryTools.search_memory, hq, h1, h2, h3, not_lt.mpr h2,
          not_lt.mpr h3, hf]
    · intro hbad
      simp [MemoryTools.search_memory, hq]
      by_cases h1 : (pyGetD args "limit" (.int 10)).isInstInt = true
      · simp [h1] at hbad ⊢
        omega
      · simp [h1]

/-- C3, witness: a limit of 0 and a string limit are rejected with the
exact message; an in-range limit and an absent limit pass to the backend
with the supplied/defaulted value. -/
theorem C3_witness :
    MemoryTools.retrieve_memory
      [("query", Value.str "q"), ("limit", Value.int 0)] =
      .error (.valueError "limit must be an integer between 1 and 50") ∧
    MemoryTools.retrieve_memory [("query", Value.str "q")] =
      .ok (.retrieve (Value.str "q") (.str "default_user") (Value.int 10)) ∧
    MemoryTools.search_memory
      [("search_query", Value.str "s"), ("limit", Value.str "bad")] =
      .error (.valueError "limit must be an integer between 1 and 50") ∧
    MemoryTools.search_memory
      [("search_query", Value.str "s"), ("limit", Value.int 50)] =
      .ok (.search (Value.str "s") (.str "default_user") (.obj [])
        (Value.int 50)) :=
  ⟨((C3_theorem.1 [("query", Value.str "q"), ("limit", Value.int 0)]
      rfl).2 (by decide)),
   ((C3_theorem.1 [("query", Value.str "q")] rfl).1 (by decide)),
   ((C3_theorem.2 [("search_query", Value.str "s"), ("limit", Value.str "bad")]
      rfl (Or.inl rfl)).2 (by decide)),
   ((C3_theorem.2 [("search_query", Value.str "s"), ("limit", Value.int 50)]
      rfl (Or.inl rfl)).1 (by decide))⟩

/-- C6: dispatching a call whose operation name is not among the five
registered operations yields an error-flagged result envelope whose text
identifies the unknown operation, with no tool handler or backend method
invoked; and more generally every error raised below the dispatcher —
`ValueError` from validation or dispatch, any other exception from a tool,
or an exception surfaced by the backend — is caught at the dispatcher
boundary and returned as an error-flagged envelope rather than propagated,
so the serving loop keeps running after any single call's failure. -/
theorem C6_theorem (backend : BackendCall → Except String String)
    (name : String) (args : Args)
    (h : name ∉ (["memorize_conversation", "retrieve_memory", "search_memory",
      "manage_memory", "get_memory_stats"] : List String)) :
    call_tool backend name args =
      { text := "Error: Unknown tool: " ++ name, isErr := true,
        backendCall := Option.none } ∧
    (∀ (name2 : String) (args2 : Args) (m : String),
      dispatch_tool name2 args2 = .error (.valueError m) →
      call_tool backend name2 args2 =
        { text := "Error: " ++ m, isErr := true,
          backendCall := Option.none }) ∧
    (∀ (name2 : String) (args2 : Args) (m : String),
      dispatch_tool name2 args2 = .error (.otherError m) →
      call_tool backend name2 args2 =
        { text := "Internal error: " ++ m, isErr := true,
          backendCall := Option.none }) ∧
    (∀ (name2 : String) (args2 : Args) (bc : BackendCall) (m : String),
      dispatch_tool name2 args2 = .ok bc → backend bc = .error m →
      call_tool backend name2 args2 =
        { text := "Internal error: " ++ m, isErr := true,
          backendCall := some bc }) := by
  refine ⟨?_, ?_, ?_, ?_⟩
  · simp only [List.mem_cons, List.not_mem_nil, or_false, not_or] at h
    obtain ⟨h1, h2, h3, h4, h5⟩ := h
    simp [call_tool, dispatch_tool, h1, h2, h3, h4, h5]
    rw [← String.append_assoc,
      show ("Error: " ++ "Unknown tool: " : String) = "Error: Unknown tool: "
        from rfl]
  · intro name2 args2 m hd
    simp [call_tool, hd]
  · intro name2 args2 m hd
    simp [call_tool, hd]
  · intro name2 args2 bc m hd hb
    simp [call_tool, hd, hb]

/-- C6, witness: a concrete unknown operation name yields the error
envelope and no backend call. -/
theorem C6_witness :
    call_tool (fun _ => .ok "unused") "bogus_tool" ([] : Args) =
      { text := "Error: Unknown tool: bogus_tool", isErr := true,
        backendCall := Option.none } :=
  (C6_theorem (fun _ => .ok "unused") "bogus_tool" [] (by decide)).1

/-- C8: for every valid `memorize_conversation` adapter call (session
handle present) whose backend call completes successfully, the returned
result mapping contains `tokens_processed` equal to the
whitespace-delimited word count of the input conversation (the number of
maximal non-whitespace runs), a `success` flag equal to `true`, and a
`processing_time` equal to the rounded seconds-elapsed measurement sampled
around the backend call. -/
theorem C8_theorem (conversation : String) (uid un aid an : Value)
    (memId : Value) (elapsed : ℚ) :
    ∃ d : MemuClientWrapper.ResultDict,
      MemuClientWrapper.memorize_conversation true conversation uid un aid an
        (.ok memId) elapsed = .ok d ∧
      List.lookup "tokens_processed" d =
        some (.int (wordCount conversation)) ∧
      List.lookup "success" d = some (.bool true) ∧
      List.lookup "processing_time" d = some (.num (round3 elapsed)) := by
  refine ⟨_, rfl, ?_, rfl, rfl⟩
  rw [pySplit_length_eq_wordCount]
  rfl

/-- C8, witness: the theorem applied to a concrete conversation of three
whitespace-delimited words. -/
theorem C8_witness :
    ∃ d : MemuClientWrapper.ResultDict,
      MemuClientWrapper.memorize_conversation true "User: hi there"
        (Value.str "u") (Value.str "U") (Value.str "a") (Value.str "A")
        (.ok (Value.str "mem_001")) 0 = .ok d ∧
      List.lookup "tokens_processed" d = some (.int (wordCount "User: hi there")) ∧
      List.lookup "success" d = some (.bool true) ∧
      List.lookup "processing_time" d = some (.num (round3 0)) :=
  C8_theorem "User: hi there" (Value.str "u") (Value.str "U") (Value.str "a")
    (Value.str "A") (Value.str "mem_001") 0

/-- C5: `initialize()` attempts connection at most `max_retries + 1` times;
the sleeps it performs are exactly `base_delay * 2 ^ attempt` for the
0-indexed failed attempts in order (one per failed attempt with retries
remaining); if every attempt fails it raises a connection error after
exactly `max_retries + 1` attempts; the attempt it returns on is a
successful one, every earlier attempt having failed, and on success the
retry counter is reset to 0; and the first successful attempt index `k`
(when `k ≤ max_retries`) makes it return successfully after exactly
`k + 1` attempts. -/
theorem C5_theorem (outcome : Nat → Bool) (b : ℚ) (m : Nat) (c0 : Bool)
    (rc0 : Nat) :
    (MemuClientWrapper.init outcome b m c0 rc0).attempts ≤ m + 1 ∧
    (MemuClientWrapper.init outcome b m c0 rc0).delays =
      (List.range ((MemuClientWrapper.init outcome b m c0 rc0).attempts - 1)).map
        (fun i => b * 2 ^ i) ∧
    ((∀ a, outcome a = false) →
      (MemuClientWrapper.init outcome b m c0 rc0).ok = false ∧
      (MemuClientWrapper.init outcome b m c0 rc0).attempts = m + 1) ∧
    ((MemuClientWrapper.init outcome b m c0 rc0).ok = true →
      outcome ((MemuClientWrapper.init outcome b m c0 rc0).attempts - 1) = true ∧
      (∀ j, j + 1 < (MemuClientWrapper.init outcome b m c0 rc0).attempts →
        outcome j = false) ∧
      (MemuClientWrapper.init outcome b m c0 rc0).retry_count = 0) ∧
    (∀ k, k ≤ m → outcome k = true → (∀ j, j < k → outcome j = false) →
      (MemuClientWrapper.init outcome b m c0 rc0).ok = true ∧
      (MemuClientWrapper.init outcome b m c0 rc0).attempts = k + 1) := by
  obtain ⟨⟨hlo, hhi⟩, hdl, hfail, hok, hbad⟩ :=
    initAttempts_spec outcome b m c0 rc0 m 0 [] (by omega) (by omega)
  simp only [show MemuClientWrapper.initAttempts outcome b m c0 rc0 0 []
      = MemuClientWrapper.init outcome b m c0 rc0 from rfl]
    at hlo hhi hdl hfail hok hbad
  have hrange : (List.range'
      0 ((MemuClientWrapper.init outcome b m c0 rc0).attempts - 1)) =
      List.range ((MemuClientWrapper.init outcome b m c0 rc0).attempts - 1) :=
    (List.range_eq_range' _).symm
  refine ⟨hhi, ?_, ?_, ?_, ?_⟩
  · simpa [hrange] using hdl
  · intro hall
    have hok2 : (MemuClientWrapper.init outcome b m c0 rc0).ok = false := by
      cases hcase : (MemuClientWrapper.init outcome b m c0 rc0).ok
      · rfl
      · have := (hok hcase).1
        rw [hall _] at this
        exact absurd this (by simp)
    exact ⟨hok2, (hbad hok2).1⟩
  · intro hcase
    exact ⟨(hok hcase).1, fun j hj => hfail j (by omega) hj, (hok hcase).2.1⟩
  · intro k hk hks hkf
    have hok2 : (MemuClientWrapper.init outcome b m c0 rc0).ok = true := by
      cases hcase : (MemuClientWrapper.init outcome b m c0 rc0).ok
      · obtain ⟨hA, hm2, _, _⟩ := hbad hcase
        rcases Nat.lt_or_ge k m with hkm | hkm
        · have := hfail k (by omega) (by omega)
          rw [hks] at this
          exact absurd this (by simp)
        · have hkm2 : k = m := by omega
          rw [hkm2] at hks
          rw [hks] at hm2
          exact absurd hm2 (by simp)
      · rfl
    refine ⟨hok2, ?_⟩
    obtain ⟨hsucc, _, _⟩ := hok hok2
    by_contra hne
    rcases Nat.lt_or_ge ((MemuClientWrapper.init outcome b m c0 rc0).attempts)
        (k + 1) with hlt | hge
    · have := hkf ((MemuClientWrapper.init outcome b m c0 rc0).attempts - 1)
        (by omega)
      rw [hsucc] at this
      exact absurd this (by simp)
    · have := hfail k (by omega) (by omega)
      rw [hks] at this
      exact absurd this (by simp)

/-- C5, witness: with `max_retries = 1` and an always-failing backend,
`initialize()` raises the connection error after exactly 2 attempts,
having slept once. -/
theorem C5_witness :
    (MemuClientWrapper.init (fun _ => false) 5 1 false 0).ok = false ∧
    (MemuClientWrapper.init (fun _ => false) 5 1 false 0).attempts = 2 :=
  (C5_theorem (fun _ => false) 5 1 false 0).2.2.1 (fun _ => rfl)

/-- C10: every per-operation backend adapter method raises
`"Client not initialized"`, performing no backend work (the result does
not depend on the backend outcome or the arguments), whenever the session
handle is absent; the handle is absent at construction (before
`initialize()` has succeeded), a failed `initialize()` leaves it as it
was, `close()` leaves it absent from any state, and `close()` is
idempotent — so the guard is an invariant of the session lifecycle. -/
theorem C10_theorem :
    (∀ (conv : String) (uid un aid an : Value) (br : Except String Value)
      (el : ℚ),
      MemuClientWrapper.memorize_conversation false conv uid un aid an br el =
        .error "Client not initialized") ∧
    (∀ (q u : String) (lim : Int) (el : ℚ),
      MemuClientWrapper.retrieve_memory false q u lim el =
        .error "Client not initialized") ∧
    (∀ (sq u : String) (f : Value) (lim : Int) (el : ℚ),
      MemuClientWrapper.search_memory false sq u f lim el =
        .error "Client not initialized") ∧
    (∀ (mid nc u : String) (el : ℚ),
      MemuClientWrapper.update_memory false mid nc u el =
        .error "Client not initialized") ∧
    (∀ (mid u : String) (el : ℚ),
      MemuClientWrapper.delete_memory false mid u el =
        .error "Client not initialized") ∧
    (∀ (u : String) (incl : Bool) (el : ℚ),
      MemuClientWrapper.get_memory_stats false u incl el =
        .error "Client not initialized") ∧
    MemuClientWrapper.initClient = false ∧
    (∀ (outcome : Nat → Bool) (b : ℚ) (m : Nat) (c0 : Bool) (rc0 : Nat),
      (MemuClientWrapper.init outcome b m c0 rc0).ok = false →
      (MemuClientWrapper.init outcome b m c0 rc0).client = c0) ∧
    (∀ c, MemuClientWrapper.close c = false) ∧
    (∀ c, MemuClientWrapper.close (MemuClientWrapper.close c) =
      MemuClientWrapper.close c) := by
  refine ⟨fun _ _ _ _ _ _ _ => rfl, fun _ _ _ _ => rfl, fun _ _ _ _ _ => rfl,
    fun _ _ _ _ => rfl, fun _ _ _ => rfl, fun _ _ _ => rfl, rfl, ?_, ?_, ?_⟩
  · intro outcome b m c0 rc0 hfalse
    obtain ⟨_, _, _, _, hbad⟩ :=
      initAttempts_spec outcome b m c0 rc0 m 0 [] (by omega) (by omega)
    exact (hbad hfalse).2.2.1
  · intro c
    cases c <;> rfl
  · intro c
    cases c <;> rfl

/-- C10, witness: the guard and lifecycle facts at concrete inputs. -/
theorem C10_witness :
    MemuClientWrapper.memorize_conversation false "hello" (Value.str "u")
      (Value.str "U") (Value.str "a") (Value.str "A")
      (.ok (Value.str "mem_001")) 0 = .error "Client not initialized" ∧
    MemuClientWrapper.get_memory_stats false "u" true 0 =
      .error "Client not initialized" ∧
    (MemuClientWrapper.init (fun _ => false) 5 0 false 0).client = false ∧
    MemuClientWrapper.close true = false :=
  ⟨C10_theorem.1 "hello" (Value.str "u") (Value.str "U") (Value.str "a")
      (Value.str "A") (.ok (Value.str "mem_001")) 0,
   C10_theorem.2.2.2.2.2.1 "u" true 0,
   C10_theorem.2.2.2.2.2.2.2.1 (fun _ => false) 5 0 false 0
     (by simp [MemuClientWrapper.init, MemuClientWrapper.initAttempts]),
   C10_theorem.2.2.2.2.2.2.2.2.1 true⟩
